import Mathlib

/-
Shallow embedding of the vote-integrity and tally subsystem of the
vot-romania single-page application (src/src/App.jsx).

The component state (React useState hooks), the browser localStorage key
_voteId, and the Firestore collection of votes are modelled explicitly as
records; each handler of App.jsx becomes a pure Lean function on that
state.  Asynchronous collaborator calls (Firestore reads/writes, the IP
lookup, the reCAPTCHA callback) are modelled by passing their results as
arguments; the append's success or failure is a Bool argument, and the
crypto.randomUUID source is a String argument supplying the fresh token.
JavaScript string truthiness is modelled as being different from the empty
string "".
-/

namespace VotRomania

/-- One document of the Firestore votes collection, as written by
submitVote: option, IP, voteID, timestamp.  An absent or falsy option
field is modelled as the empty string. -/
structure Vote where
  option : String
  ip : String
  voteID : String
  timestamp : String
deriving Repr, DecidableEq

/-- The JavaScript stats object of fetchVoteStats: an insertion-ordered
list of key/count properties with distinct keys. -/
abbrev Stats := List (String × Nat)

/-- Property read with default 0: models Number(stats[k] || 0), which is
the stored count when the key is present and 0 when it is absent. -/
def objGet (o : Stats) (k : String) : Nat :=
  match o with
  | [] => 0
  | p :: rest => if p.1 = k then p.2 else objGet rest k

/-- Property assignment stats[k] = v on a JavaScript object: updates the
existing property in place, or appends a new one at the end. -/
def objSet (o : Stats) (k : String) (v : Nat) : Stats :=
  match o with
  | [] => [(k, v)]
  | p :: rest => if p.1 = k then (k, v) :: rest else p :: objSet rest k v

/-- Sum of the values of the stats object: models
Object.values(voteStats).reduce((a, b) => Number(a) + Number(b), 0). -/
def totalVotes (o : Stats) : Nat :=
  o.foldl (fun a p => a + p.2) 0

/-- The initial accumulator of fetchVoteStats: { A: 0, B: 0, C: 0 }. -/
def initialStats : Stats := [("A", 0), ("B", 0), ("C", 0)]

/-- One iteration of the forEach loop of fetchVoteStats:
if (option) stats[option] = Number(stats[option] || 0) + 1. -/
def tallyStep (o : Stats) (v : Vote) : Stats :=
  if v.option = "" then o else objSet o v.option (objGet o v.option + 1)

/-- The aggregation loop of fetchVoteStats over the ledger's documents. -/
def computeTally (votes : List Vote) : Stats :=
  votes.foldl tallyStep initialStats

theorem objGet_objSet_self (o : Stats) (k : String) (v : Nat) :
    objGet (objSet o k v) k = v := by
  induction o with
  | nil => simp [objSet, objGet]
  | cons p rest ih =>
      by_cases h : p.1 = k
      · simp [objSet, objGet, h]
      · simp [objSet, objGet, h, ih]

theorem objGet_objSet_ne (o : Stats) (k k' : String) (v : Nat)
    (h : k' ≠ k) : objGet (objSet o k v) k' = objGet o k' := by
  have h' : k ≠ k' := Ne.symm h
  induction o with
  | nil => simp [objSet, objGet, h']
  | cons p rest ih =>
      by_cases hp : p.1 = k
      · simp [objSet, objGet, hp, h, h']
      · by_cases hp' : p.1 = k'
        · simp [objSet, objGet, hp, hp', h, h']
        · simp [objSet, objGet, hp, hp', h, h', ih]

theorem totalVotes_eq_sum (o : Stats) :
    totalVotes o = (o.map Prod.snd).sum := by
  have key : ∀ (l : Stats) (n : Nat),
      l.foldl (fun a p => a + p.2) n = n + (l.map Prod.snd).sum := by
    intro l
    induction l with
    | nil => intro n; simp
    | cons p rest ih =>
        intro n
        simp [List.foldl_cons, ih, Nat.add_assoc]
  simpa [totalVotes] using key o 0

theorem totalVotes_objSet_incr (o : Stats) (k : String) :
    totalVotes (objSet o k (objGet o k + 1)) = totalVotes o + 1 := by
  rw [totalVotes_eq_sum, totalVotes_eq_sum]
  induction o with
  | nil => simp [objSet, objGet]
  | cons p rest ih =>
      by_cases h : p.1 = k
      · simp [objSet, objGet, h, Nat.add_assoc, Nat.add_comm 1]
      · simp only [objSet, objGet, h, if_false, List.map_cons, List.sum_cons]
        rw [ih]
        omega

theorem objGet_foldl_tallyStep (l : List Vote) (o : Stats) (k : String) :
    objGet (l.foldl tallyStep o) k
      = objGet o k + l.countP (fun v => v.option == k && !(v.option == "")) := by
  induction l generalizing o with
  | nil => simp
  | cons v rest ih =>
      rw [List.foldl_cons, ih, List.countP_cons]
      by_cases hempty : v.option = ""
      · by_cases hk : v.option = k
        · simp [tallyStep, hempty, hk, hempty ▸ hk]
        · simp [tallyStep, hempty, hk]
      · by_cases hk : v.option = k
        · subst hk
          simp [tallyStep, hempty, objGet_objSet_self]
          omega
        · have hk' : k ≠ v.option := fun hh => hk hh.symm
          simp [tallyStep, hempty, hk, objGet_objSet_ne _ _ _ _ hk']

theorem totalVotes_foldl_tallyStep (l : List Vote) (o : Stats) :
    totalVotes (l.foldl tallyStep o)
      = totalVotes o + l.countP (fun v => !(v.option == "")) := by
  induction l generalizing o with
  | nil => simp
  | cons v rest ih =>
      rw [List.foldl_cons, ih, List.countP_cons]
      by_cases hempty : v.option = ""
      · simp [tallyStep, hempty]
      · simp [tallyStep, hempty, totalVotes_objSet_incr]
        omega

theorem mem_keys_objSet (o : Stats) (k k₀ : String) (v : Nat) :
    k₀ ∈ (objSet o k v).map Prod.fst ↔ (k₀ = k ∨ k₀ ∈ o.map Prod.fst) := by
  induction o with
  | nil => simp [objSet]
  | cons p rest ih =>
      by_cases hp : p.1 = k
      · simp [objSet, hp, List.mem_cons]
      · simp [objSet, hp, List.mem_cons, ih]
        tauto

theorem foldl_tallyStep_keys_mono (l : List Vote) (o : Stats) (k₀ : String)
    (h : k₀ ∈ o.map Prod.fst) : k₀ ∈ (l.foldl tallyStep o).map Prod.fst := by
  induction l generalizing o with
  | nil => simpa using h
  | cons v rest ih =>
      rw [List.foldl_cons]
      apply ih
      by_cases hempty : v.option = ""
      · simpa [tallyStep, hempty] using h
      · simp only [tallyStep, hempty, if_false]
        exact (mem_keys_objSet _ _ _ _).mpr (Or.inr h)

/-- The React component state of App: the useState hooks hasVoted,
voteStats, loading, userIP, captchaVerified, showCaptcha. -/
structure AppState where
  hasVoted : Bool
  voteStats : Stats
  loading : Bool
  userIP : String
  captchaVerified : Bool
  showCaptcha : Bool
deriving Repr, DecidableEq

/-- The whole observable world of the page: component state, the
localStorage key _voteId (none when absent), and the Firestore votes
collection as an append-only list. -/
structure World where
  state : AppState
  store : Option String
  ledger : List Vote
deriving Repr, DecidableEq

/-- generateVoteId: returns the stored _voteId when present, otherwise
persists and returns a fresh crypto.randomUUID value (the fresh
argument).  Result is the returned token paired with the localStorage
contents afterwards. -/
def generateVoteId (store : Option String) (fresh : String) :
    String × Option String :=
  match store with
  | some t => (t, some t)
  | none => (fresh, some fresh)

/-- The ledger predicate behind the duplicate checks: the voteID query
(records where voteID == idTok) or the IP query (records where
IP == addr) returns a non-empty result. -/
def hasVoteFor (ledger : List Vote) (idTok addr : String) : Bool :=
  !(ledger.filter (fun v => v.voteID == idTok)).isEmpty
    || !(ledger.filter (fun v => v.ip == addr)).isEmpty

/-- checkVoteByIP(ip): nothing for a falsy ip; otherwise query votes where
IP == ip and, when non-empty, set hasVoted and overwrite localStorage
_voteId with the first matching document's voteID.  The query-error catch
branch leaves the world unchanged and is not modelled separately. -/
def checkVoteByIP (ip : String) (w : World) : World :=
  if ip = "" then w
  else
    match w.ledger.filter (fun v => v.ip == ip) with
    | [] => w
    | m :: _ =>
        { w with state := { w.state with hasVoted := true },
                 store := some m.voteID }

/-- checkVoteStatus: resolve the identity token via generateVoteId, run
the voteID query and the IP query (Promise.all, the IP query using the
current userIP state value), set hasVoted and update localStorage when
either is non-empty, and finally clear loading. -/
def checkVoteStatus (fresh : String) (w : World) : World :=
  let idRes := generateVoteId w.store fresh
  let voteId := idRes.1
  let idMatches := w.ledger.filter (fun v => v.voteID == voteId)
  let ipMatches := w.ledger.filter (fun v => v.ip == w.state.userIP)
  let w1 : World := { w with store := idRes.2 }
  let w2 : World :=
    if idMatches.isEmpty = false ∨ ipMatches.isEmpty = false then
      if idMatches.isEmpty = false then
        { w1 with state := { w1.state with hasVoted := true },
                  store := some voteId }
      else
        match ipMatches with
        | m :: _ =>
            { w1 with state := { w1.state with hasVoted := true },
                      store := some m.voteID }
        | [] => w1
    else w1
  { w2 with state := { w2.state with loading := false } }

/-- fetchVoteStats: read the whole votes collection and recompute the
per-option stats object. -/
def fetchVoteStats (w : World) : World :=
  { w with state := { w.state with voteStats := computeTally w.ledger } }

/-- fetchIP with a successful lookup returning ip: store it in userIP and,
when truthy, run checkVoteByIP on it. -/
def fetchIP (ip : String) (w : World) : World :=
  let w1 : World := { w with state := { w.state with userIP := ip } }
  if ip = "" then w1 else checkVoteByIP ip w1

/-- onCaptchaChange(value): a truthy verification token sets
captchaVerified and closes the captcha modal; a falsy (expired/failed)
token changes nothing. -/
def onCaptchaChange (value : String) (w : World) : World :=
  if value = "" then w
  else { w with state := { w.state with captchaVerified := true,
                                        showCaptcha := false } }

/-- The user-visible outcome of a vote click. -/
inductive ClickOutcome where
  | alreadyVotedToast
  | captchaShown
deriving Repr, DecidableEq

/-- handleVoteClick: an already-voted visitor gets the warning toast and
no state change; otherwise the captcha modal opens. -/
def handleVoteClick (w : World) : World × ClickOutcome :=
  if w.state.hasVoted then (w, ClickOutcome.alreadyVotedToast)
  else ({ w with state := { w.state with showCaptcha := true } },
        ClickOutcome.captchaShown)

/-- The user-visible outcome of submitVote. -/
inductive SubmitOutcome where
  | alreadyVotedToast
  | verificationNeededToast
  | successToast
  | errorToast
deriving Repr, DecidableEq

/-- submitVote(option): guard on hasVoted, then on captchaVerified (the
failed guard reopens the captcha modal); then resolve the identity token
and attempt addDoc.  appendOk tells whether the Firestore write succeeds;
now is the timestamp new Date().toISOString().  On success the vote is
appended, hasVoted is set and the stats are refetched; on failure only
the error toast is produced (the token persisted by generateVoteId
remains). -/
def submitVote (opt : String) (appendOk : Bool) (now fresh : String)
    (w : World) : World × SubmitOutcome :=
  if w.state.hasVoted then (w, SubmitOutcome.alreadyVotedToast)
  else if w.state.captchaVerified = false then
    ({ w with state := { w.state with showCaptcha := true } },
     SubmitOutcome.verificationNeededToast)
  else
    let idRes := generateVoteId w.store fresh
    let w1 : World := { w with store := idRes.2 }
    if appendOk then
      let newVote : Vote :=
        { option := opt, ip := w.state.userIP, voteID := idRes.1,
          timestamp := now }
      let ledger1 := w.ledger ++ [newVote]
      ({ w1 with
           ledger := ledger1,
           state := { w1.state with hasVoted := true,
                                    voteStats := computeTally ledger1 } },
       SubmitOutcome.successToast)
    else (w1, SubmitOutcome.errorToast)

/-- The operations of the system, each carrying the results of its
external collaborator calls. -/
inductive AppOp where
  | captchaChange (value : String)
  | voteClick
  | submit (opt : String) (appendOk : Bool) (now fresh : String)
  | checkByIP (ip : String)
  | checkStatus (fresh : String)
  | fetchStats
  | ipFetch (ip : String)
deriving Repr, DecidableEq

/-- One step of the system: dispatch an operation on the world. -/
def stepApp (op : AppOp) (w : World) : World :=
  match op with
  | AppOp.captchaChange value => onCaptchaChange value w
  | AppOp.voteClick => (handleVoteClick w).1
  | AppOp.submit opt appendOk now fresh => (submitVote opt appendOk now fresh w).1
  | AppOp.checkByIP ip => checkVoteByIP ip w
  | AppOp.checkStatus fresh => checkVoteStatus fresh w
  | AppOp.fetchStats => fetchVoteStats w
  | AppOp.ipFetch ip => fetchIP ip w

/-- Run a sequence of operations. -/
def applyOps (ops : List AppOp) (w : World) : World :=
  ops.foldl (fun w op => stepApp op w) w

/-- Whether an operation is a captcha callback carrying a truthy token:
the only way any operation grants verification. -/
def grantsVerification (op : AppOp) : Bool :=
  match op with
  | AppOp.captchaChange value => !(value == "")
  | _ => false

/-- Two vote intents where the second arrives while the first append is
still in flight.  Mirrors the await semantics of submitVote: each call's
hasVoted/captchaVerified guards and its generateVoteId run synchronously
before either addDoc resolves, and setHasVoted(true) runs only in a
continuation after its own addDoc resolves, so the second call's guard
still sees hasVoted = false.  Both issued addDoc writes land (modelled
with both appends succeeding, the second continuation resolving last).
Returns the final world and the number of addDoc writes issued. -/
def submitVoteTwiceInFlight (opt1 opt2 now fresh : String) (w : World) :
    World × Nat :=
  if w.state.hasVoted then (w, 0)
  else if w.state.captchaVerified = false then
    ({ w with state := { w.state with showCaptcha := true } }, 0)
  else
    let idRes1 := generateVoteId w.store fresh
    let idRes2 := generateVoteId idRes1.2 fresh
    let v1 : Vote :=
      { option := opt1, ip := w.state.userIP, voteID := idRes1.1,
        timestamp := now }
    let v2 : Vote :=
      { option := opt2, ip := w.state.userIP, voteID := idRes2.1,
        timestamp := now }
    let ledger1 := w.ledger ++ [v1] ++ [v2]
    ({ w with
         store := idRes2.2,
         ledger := ledger1,
         state := { w.state with hasVoted := true,
                                 voteStats := computeTally ledger1 } },
     2)

/-- The component state at first render: hasVoted false, stats zeroed,
loading true, empty userIP, captcha neither verified nor shown. -/
def initialState : AppState :=
  { hasVoted := false, voteStats := initialStats, loading := true,
    userIP := "", captchaVerified := false, showCaptcha := false }

/-- The mount effect of App: checkVoteStatus(); fetchVoteStats();
fetchIP().  checkVoteStatus runs with the initial userIP value (the empty
string), before the IP lookup completes; the lookup then resolves to
actualIP and triggers checkVoteByIP. -/
def mountApp (actualIP fresh : String) (store : Option String)
    (ledger : List Vote) : World :=
  let w0 : World := { state := initialState, store := store, ledger := ledger }
  let w1 := checkVoteStatus fresh w0
  let w2 := fetchVoteStats w1
  fetchIP actualIP w2

theorem countP_not_add (l : List Vote) (p : Vote → Bool) :
    l.countP (fun v => !(p v)) + l.countP p = l.length := by
  induction l with
  | nil => simp
  | cons v rest ih =>
      rw [List.countP_cons, List.countP_cons]
      by_cases h : p v = true
      · simp [h]; omega
      · simp [h]; omega

theorem objGet_initialStats (k : String) : objGet initialStats k = 0 := by
  simp [initialStats, objGet]

theorem isEmpty_append_bool (a b : List Vote) :
    (a ++ b).isEmpty = (a.isEmpty && b.isEmpty) := by
  cases a <;> simp [List.isEmpty]

theorem hasVoteFor_append (l e : List Vote) (t a : String)
    (h : hasVoteFor l t a = true) : hasVoteFor (l ++ e) t a = true := by
  simp only [hasVoteFor, List.filter_append, isEmpty_append_bool,
    Bool.not_and, Bool.or_eq_true, Bool.not_eq_true'] at h ⊢
  tauto

theorem hasVoteFor_append_self (l : List Vote) (v : Vote) (a : String) :
    hasVoteFor (l ++ [v]) v.voteID a = true := by
  simp [hasVoteFor, List.filter_append, isEmpty_append_bool, List.filter_cons]

theorem generateVoteId_second (s : Option String) (f1 f2 : String) :
    generateVoteId (generateVoteId s f1).2 f2 = generateVoteId s f1 := by
  cases s <;> rfl

theorem applyOps_nil (w : World) : applyOps [] w = w := rfl

theorem applyOps_cons (o : AppOp) (rest : List AppOp) (w : World) :
    applyOps (o :: rest) w = applyOps rest (stepApp o w) := rfl

theorem checkVoteByIP_ledger (ip : String) (w : World) :
    (checkVoteByIP ip w).ledger = w.ledger := by
  dsimp only [checkVoteByIP]
  repeat' split
  all_goals rfl

theorem checkVoteStatus_ledger (fresh : String) (w : World) :
    (checkVoteStatus fresh w).ledger = w.ledger := by
  dsimp only [checkVoteStatus]
  repeat' split
  all_goals rfl

theorem checkVoteByIP_captcha (ip : String) (w : World) :
    (checkVoteByIP ip w).state.captchaVerified = w.state.captchaVerified := by
  dsimp only [checkVoteByIP]
  repeat' split
  all_goals rfl

theorem checkVoteStatus_captcha (fresh : String) (w : World) :
    (checkVoteStatus fresh w).state.captchaVerified
      = w.state.captchaVerified := by
  dsimp only [checkVoteStatus]
  repeat' split
  all_goals rfl

theorem stepApp_ledger_extends (op : AppOp) (w : World) :
    ∃ e, (stepApp op w).ledger = w.ledger ++ e := by
  cases op with
  | captchaChange value =>
      refine ⟨[], ?_⟩
      by_cases h : value = "" <;> simp [stepApp, onCaptchaChange, h]
  | voteClick =>
      refine ⟨[], ?_⟩
      cases hv : w.state.hasVoted <;> simp [stepApp, handleVoteClick, hv]
  | submit opt appendOk now fresh =>
      cases hv : w.state.hasVoted with
      | true => exact ⟨[], by simp [stepApp, submitVote, hv]⟩
      | false =>
          cases hc : w.state.captchaVerified with
          | false => exact ⟨[], by simp [stepApp, submitVote, hv, hc]⟩
          | true =>
              cases appendOk with
              | false => exact ⟨[], by simp [stepApp, submitVote, hv, hc]⟩
              | true =>
                  refine ⟨[⟨opt, w.state.userIP,
                    (generateVoteId w.store fresh).1, now⟩], ?_⟩
                  simp [stepApp, submitVote, hv, hc]
  | checkByIP ip =>
      exact ⟨[], by simp [stepApp, checkVoteByIP_ledger]⟩
  | checkStatus fresh =>
      exact ⟨[], by simp [stepApp, checkVoteStatus_ledger]⟩
  | fetchStats =>
      exact ⟨[], by simp [stepApp, fetchVoteStats]⟩
  | ipFetch ip =>
      refine ⟨[], ?_⟩
      by_cases h : ip = "" <;> simp [stepApp, fetchIP, h, checkVoteByIP_ledger]

theorem applyOps_hasVoteFor (ops : List AppOp) (w : World) (t a : String)
    (h : hasVoteFor w.ledger t a = true) :
    hasVoteFor (applyOps ops w).ledger t a = true := by
  induction ops generalizing w with
  | nil => simpa [applyOps_nil] using h
  | cons op rest ih =>
      rw [applyOps_cons]
      rcases stepApp_ledger_extends op w with ⟨e, he⟩
      exact ih (stepApp op w) (by rw [he]; exact hasVoteFor_append _ _ _ _ h)

theorem stepApp_captchaVerified (op : AppOp) (w : World) :
    (stepApp op w).state.captchaVerified
      = (w.state.captchaVerified || grantsVerification op) := by
  cases op with
  | captchaChange value =>
      by_cases h : value = "" <;>
        simp [stepApp, onCaptchaChange, grantsVerification, h]
  | voteClick =>
      cases hv : w.state.hasVoted <;>
        simp [stepApp, handleVoteClick, grantsVerification, hv]
  | submit opt appendOk now fresh =>
      cases hv : w.state.hasVoted <;> cases hc : w.state.captchaVerified <;>
        cases appendOk <;> simp [stepApp, submitVote, grantsVerification, hv, hc]
  | checkByIP ip =>
      simp [stepApp, checkVoteByIP_captcha, grantsVerification]
  | checkStatus fresh =>
      simp [stepApp, checkVoteStatus_captcha, grantsVerification]
  | fetchStats => simp [stepApp, fetchVoteStats, grantsVerification]
  | ipFetch ip =>
      by_cases h : ip = "" <;>
        simp [stepApp, fetchIP, h, checkVoteByIP_captcha, grantsVerification]

theorem checkVoteStatus_decides (fresh : String) (w : World) :
    (checkVoteStatus fresh w).state.loading = false
    ∧ (checkVoteStatus fresh w).state.hasVoted
        = (w.state.hasVoted
           || hasVoteFor w.ledger (generateVoteId w.store fresh).1
                w.state.userIP) := by
  dsimp only [checkVoteStatus, hasVoteFor]
  rcases hID : w.ledger.filter
      (fun v => v.voteID == (generateVoteId w.store fresh).1) with _ | ⟨m, ms⟩ <;>
    rcases hIP : w.ledger.filter
        (fun v => v.ip == w.state.userIP) with _ | ⟨m2, ms2⟩ <;>
      simp [hID, hIP]

/-- A concrete world: a verified visitor who has not voted yet, with a
persisted token tok and an empty ledger. -/
def verifiedWorld : World :=
  { state := { hasVoted := false, voteStats := initialStats, loading := false,
               userIP := "7.7.7.7", captchaVerified := true,
               showCaptcha := false },
    store := some "tok", ledger := [] }

/-- A concrete world whose ledger already holds a vote carrying the
visitor's own persisted identity token tok (for example cast from another
tab after this tab's initial check), while this tab's hasVoted flag is
still false. -/
def staleFlagWorld : World :=
  { state := { hasVoted := false, voteStats := initialStats, loading := false,
               userIP := "1.1.1.1", captchaVerified := true,
               showCaptcha := false },
    store := some "tok",
    ledger := [⟨"A", "2.2.2.2", "tok", "t0"⟩] }

/-- A concrete world: the visitor has their own persisted token t1, and
the ledger holds a different visitor's vote cast from the network address
9.9.9.9. -/
def sharedAddressWorld : World :=
  { state := { hasVoted := false, voteStats := initialStats, loading := false,
               userIP := "", captchaVerified := false, showCaptcha := false },
    store := some "t1",
    ledger := [⟨"A", "9.9.9.9", "t2", "t0"⟩] }

/-- C1 counterexample: in staleFlagWorld the ledger already holds exactly
one vote for the resolved identity token tok, yet submitVote attempts and
completes the append, leaving two ledger entries with voteID tok — so no
re-validation against the ledger happens before the append. -/
theorem C1_counterexample :
    (generateVoteId staleFlagWorld.store "f1").1 = "tok"
    ∧ staleFlagWorld.ledger.countP (fun v => v.voteID == "tok") = 1
    ∧ (submitVote "B" true "t1" "f1" staleFlagWorld).2
        = SubmitOutcome.successToast
    ∧ (submitVote "B" true "t1" "f1" staleFlagWorld).1.ledger.countP
        (fun v => v.voteID == "tok") = 2 := by
  refine ⟨rfl, by decide, ?_, ?_⟩ <;> decide

/-- C1 (amended): submitVote gates the append only on the in-memory
hasVoted flag and the captchaVerified flag; it issues no fresh ledger
query before appending, so an append is attempted exactly when hasVoted is
false and captchaVerified is true, regardless of the ledger's contents. -/
theorem C1_amended_gate_checks_flag_not_ledger (opt : String)
    (appendOk : Bool) (now fresh : String) (w : World) :
    ((submitVote opt appendOk now fresh w).2 = SubmitOutcome.successToast
      ∨ (submitVote opt appendOk now fresh w).2 = SubmitOutcome.errorToast)
    ↔ (w.state.hasVoted = false ∧ w.state.captchaVerified = true) := by
  cases hv : w.state.hasVoted <;> cases hc : w.state.captchaVerified <;>
    cases appendOk <;> simp [submitVote, hv, hc]

/-- C2 counterexample: the persisted identity token is t1, and
checkVoteByIP — a duplicate-check operation, not the identity resolver —
overwrites the persisted copy with the voteID t2 of the first ledger
record matching the visitor's network address. -/
theorem C2_counterexample :
    sharedAddressWorld.store = some "t1"
    ∧ (checkVoteByIP "9.9.9.9" sharedAddressWorld).store = some "t2"
    ∧ ("t2" : String) ≠ "t1" := by
  refine ⟨rfl, by decide, by decide⟩

/-- C2 (amended): generateVoteId itself never regenerates or overwrites a
persisted token (it returns the stored value unchanged), but the token is
not exclusively owned by the resolver: checkVoteByIP overwrites the
persisted copy with the voteID of the first ledger record whose IP
matches the queried address. -/
theorem C2_amended_token_overwritten_by_ip_check (t fresh ip : String)
    (w : World) (m : Vote) (rest : List Vote) (hip : ip ≠ "")
    (hm : w.ledger.filter (fun v => v.ip == ip) = m :: rest) :
    generateVoteId (some t) fresh = (t, some t)
    ∧ (checkVoteByIP ip w).store = some m.voteID := by
  refine ⟨rfl, ?_⟩
  dsimp only [checkVoteByIP]
  simp [hip, hm]

theorem C2_witness :
    generateVoteId (some "t1") "f1" = ("t1", some "t1")
    ∧ (checkVoteByIP "9.9.9.9" sharedAddressWorld).store
        = some (Vote.mk "A" "9.9.9.9" "t2" "t0").voteID :=
  C2_amended_token_overwritten_by_ip_check "t1" "f1" "9.9.9.9"
    sharedAddressWorld ⟨"A", "9.9.9.9", "t2", "t0"⟩ [] (by decide) (by decide)

/-- C3 counterexample: a single vote with the unrecognized option D is not
skipped — it is counted under a new key D in the stats object and raises
the grand total to 1, where the claim predicts a total of
length − unrecognized = 0 and no count for D. -/
theorem C3_counterexample :
    totalVotes (computeTally [⟨"D", "", "", ""⟩]) = 1
    ∧ ([(⟨"D", "", "", ""⟩ : Vote)].length
        - [(⟨"D", "", "", ""⟩ : Vote)].countP
            (fun v => !(v.option == "A" || v.option == "B"
                        || v.option == "C"))) = 0
    ∧ "D" ∈ (computeTally [⟨"D", "", "", ""⟩]).map Prod.fst := by
  refine ⟨by decide, by decide, by decide⟩

/-- C3 (amended): computeTally skips only entries whose option is falsy
(the empty string): every entry with a non-empty option — recognized or
not — is counted under its own key, unrecognized values being added to
the stats object as new keys; the three recognized options are always
present (zero-filled when unvoted); the computation never fails; and the
grand total equals the length of the input minus the number of entries
with a falsy option. -/
theorem C3_amended_tally_skips_only_falsy (votes : List Vote) (k : String) :
    totalVotes (computeTally votes)
      = votes.length - votes.countP (fun v => v.option == "")
    ∧ objGet (computeTally votes) k
        = votes.countP (fun v => v.option == k && !(v.option == ""))
    ∧ "A" ∈ (computeTally votes).map Prod.fst
    ∧ "B" ∈ (computeTally votes).map Prod.fst
    ∧ "C" ∈ (computeTally votes).map Prod.fst := by
  refine ⟨?_, ?_, ?_, ?_, ?_⟩
  · rw [computeTally, totalVotes_foldl_tallyStep]
    have h0 : totalVotes initialStats = 0 := by decide
    have hsplit := countP_not_add votes (fun v => v.option == "")
    omega
  · rw [computeTally, objGet_foldl_tallyStep, objGet_initialStats]
    omega
  · exact foldl_tallyStep_keys_mono _ _ _ (by decide)
  · exact foldl_tallyStep_keys_mono _ _ _ (by decide)
  · exact foldl_tallyStep_keys_mono _ _ _ (by decide)

/-- C4: when the append fails during submission, submitVote reports the
error and leaves the gate in the Verified configuration — hasVoted stays
false (not Completed), captchaVerified stays true (not Idle), the ledger
is unchanged, the captcha modal is not reopened — and a retry of
submitVote with the same verification state succeeds without the
verification-needed prompt. -/
theorem C4_failed_append_returns_to_verified (w : World)
    (opt now fresh opt2 now2 fresh2 : String)
    (hv : w.state.hasVoted = false) (hc : w.state.captchaVerified = true) :
    (submitVote opt false now fresh w).2 = SubmitOutcome.errorToast
    ∧ (submitVote opt false now fresh w).1.state.hasVoted = false
    ∧ (submitVote opt false now fresh w).1.state.captchaVerified = true
    ∧ (submitVote opt false now fresh w).1.ledger = w.ledger
    ∧ (submitVote opt false now fresh w).1.state.showCaptcha
        = w.state.showCaptcha
    ∧ (submitVote opt2 true now2 fresh2
        (submitVote opt false now fresh w).1).2
        = SubmitOutcome.successToast := by
  simp [submitVote, hv, hc]

theorem C4_witness :
    (submitVote "A" false "t1" "f1" verifiedWorld).2 = SubmitOutcome.errorToast
    ∧ (submitVote "A" false "t1" "f1" verifiedWorld).1.state.hasVoted = false
    ∧ (submitVote "A" false "t1" "f1" verifiedWorld).1.state.captchaVerified
        = true
    ∧ (submitVote "A" false "t1" "f1" verifiedWorld).1.ledger
        = verifiedWorld.ledger
    ∧ (submitVote "A" false "t1" "f1" verifiedWorld).1.state.showCaptcha
        = verifiedWorld.state.showCaptcha
    ∧ (submitVote "B" true "t2" "f2"
        (submitVote "A" false "t1" "f1" verifiedWorld).1).2
        = SubmitOutcome.successToast :=
  C4_failed_append_returns_to_verified verifiedWorld "A" "t1" "f1" "B" "t2"
    "f2" rfl rfl

/-- C5 counterexample: at mount, with no persisted token and a ledger
holding a vote cast from the visitor's actual network address 5.5.5.5,
the initial duplicate check (checkVoteStatus, whose address query uses
the still-empty userIP) clears loading and decides hasVoted = false
(Idle), even though the duplicate predicate at the resolved address is
true; the resolved address is only checked afterwards (fetchIP →
checkVoteByIP inside mountApp), flipping hasVoted after the initial
decision was already made. -/
theorem C5_counterexample :
    (checkVoteStatus "u1"
        { state := initialState, store := none,
          ledger := [⟨"A", "5.5.5.5", "w1", "t0"⟩] }).state.loading = false
    ∧ (checkVoteStatus "u1"
        { state := initialState, store := none,
          ledger := [⟨"A", "5.5.5.5", "w1", "t0"⟩] }).state.hasVoted = false
    ∧ hasVoteFor [⟨"A", "5.5.5.5", "w1", "t0"⟩] "u1" "5.5.5.5" = true
    ∧ (mountApp "5.5.5.5" "u1" none
        [⟨"A", "5.5.5.5", "w1", "t0"⟩]).state.hasVoted = true := by
  refine ⟨by decide, by decide, by decide, by decide⟩

/-- C5 (amended): checkVoteStatus waits for both of its queries and only
then decides hasVoted and clears loading, but its address-based query
uses the current userIP state value — at mount the initial empty string,
since checkVoteStatus runs before the network-address lookup completes:
mountApp runs checkVoteStatus on the initial state first and only
afterwards lets the resolved address act through fetchIP/checkVoteByIP. -/
theorem C5_amended_initial_check_uses_unresolved_address
    (fresh actualIP : String) (w : World) (store : Option String)
    (ledger : List Vote) :
    (checkVoteStatus fresh w).state.loading = false
    ∧ (checkVoteStatus fresh w).state.hasVoted
        = (w.state.hasVoted
           || hasVoteFor w.ledger (generateVoteId w.store fresh).1
                w.state.userIP)
    ∧ mountApp actualIP fresh store ledger
        = fetchIP actualIP (fetchVoteStats (checkVoteStatus fresh
            { state := initialState, store := store, ledger := ledger })) := by
  refine ⟨(checkVoteStatus_decides fresh w).1,
    (checkVoteStatus_decides fresh w).2, rfl⟩

/-- C6 counterexample: in verifiedWorld (not voted, captcha verified), a
second vote intent arriving while the first append is in flight is not
ignored: two addDoc writes are issued and the ledger grows by two
entries, both carrying the same identity token tok. -/
theorem C6_counterexample :
    (submitVoteTwiceInFlight "A" "B" "t1" "f1" verifiedWorld).2 = 2
    ∧ (submitVoteTwiceInFlight "A" "B" "t1" "f1"
        verifiedWorld).1.ledger.length
        = verifiedWorld.ledger.length + 2
    ∧ (submitVoteTwiceInFlight "A" "B" "t1" "f1"
        verifiedWorld).1.ledger.countP (fun v => v.voteID == "tok") = 2 := by
  refine ⟨rfl, by decide, by decide⟩

/-- C6 (amended): submitVote has no in-flight guard — hasVoted is set only
in the continuation after its own append resolves — so whenever the
guards pass, a second vote intent issued while the first append is in
flight passes them again and a second append is performed, both entries
carrying the same identity token. -/
theorem C6_amended_reentrant_intent_double_appends
    (opt1 opt2 now fresh : String) (w : World)
    (hv : w.state.hasVoted = false) (hc : w.state.captchaVerified = true) :
    (submitVoteTwiceInFlight opt1 opt2 now fresh w).2 = 2
    ∧ (submitVoteTwiceInFlight opt1 opt2 now fresh w).1.ledger
        = w.ledger
          ++ [⟨opt1, w.state.userIP, (generateVoteId w.store fresh).1, now⟩,
              ⟨opt2, w.state.userIP, (generateVoteId w.store fresh).1, now⟩] := by
  cases hs : w.store <;>
    simp [submitVoteTwiceInFlight, hv, hc, generateVoteId, hs]

theorem C6_witness :
    (submitVoteTwiceInFlight "A" "B" "t1" "f1" verifiedWorld).2 = 2
    ∧ (submitVoteTwiceInFlight "A" "B" "t1" "f1" verifiedWorld).1.ledger
        = verifiedWorld.ledger
          ++ [⟨"A", verifiedWorld.state.userIP,
                (generateVoteId verifiedWorld.store "f1").1, "t1"⟩,
              ⟨"B", verifiedWorld.state.userIP,
                (generateVoteId verifiedWorld.store "f1").1, "t1"⟩] :=
  C6_amended_reentrant_intent_double_appends "A" "B" "t1" "f1"
    verifiedWorld rfl rfl

theorem submitVote_already_voted (opt : String) (appendOk : Bool)
    (now fresh : String) (w : World) (h : w.state.hasVoted = true) :
    submitVote opt appendOk now fresh w
      = (w, SubmitOutcome.alreadyVotedToast) := by
  simp [submitVote, h]

theorem handleVoteClick_already_voted (w : World)
    (h : w.state.hasVoted = true) :
    handleVoteClick w = (w, ClickOutcome.alreadyVotedToast) := by
  simp [handleVoteClick, h]

/-- C7: after a successful append with the resolved identity token t, the
duplicate predicate hasVoteFor t (at any address) stays true after any
further sequence of system operations (the ledger is append-only), and
every subsequent vote intent — via handleVoteClick or submitVote — is
rejected with the already-voted signal, with the world unchanged and
without reopening the verification challenge. -/
theorem C7_vote_permanent_and_blocking (w : World)
    (opt now fresh addr opt2 now2 fresh2 : String) (ok2 : Bool)
    (ops : List AppOp)
    (hv : w.state.hasVoted = false) (hc : w.state.captchaVerified = true) :
    (submitVote opt true now fresh w).2 = SubmitOutcome.successToast
    ∧ hasVoteFor (applyOps ops (submitVote opt true now fresh w).1).ledger
        (generateVoteId w.store fresh).1 addr = true
    ∧ handleVoteClick (submitVote opt true now fresh w).1
        = ((submitVote opt true now fresh w).1,
           ClickOutcome.alreadyVotedToast)
    ∧ submitVote opt2 ok2 now2 fresh2 (submitVote opt true now fresh w).1
        = ((submitVote opt true now fresh w).1,
           SubmitOutcome.alreadyVotedToast) := by
  have hsub : (submitVote opt true now fresh w).1.state.hasVoted = true := by
    simp [submitVote, hv, hc]
  have hled : (submitVote opt true now fresh w).1.ledger
      = w.ledger
        ++ [⟨opt, w.state.userIP, (generateVoteId w.store fresh).1, now⟩] := by
    simp [submitVote, hv, hc]
  refine ⟨by simp [submitVote, hv, hc], ?_,
    handleVoteClick_already_voted _ hsub,
    submitVote_already_voted _ _ _ _ _ hsub⟩
  apply applyOps_hasVoteFor
  rw [hled]
  exact hasVoteFor_append_self w.ledger
    ⟨opt, w.state.userIP, (generateVoteId w.store fresh).1, now⟩ addr

theorem C7_witness :
    (submitVote "A" true "t1" "f1" verifiedWorld).2
        = SubmitOutcome.successToast
    ∧ hasVoteFor (applyOps [AppOp.fetchStats]
        (submitVote "A" true "t1" "f1" verifiedWorld).1).ledger
        (generateVoteId verifiedWorld.store "f1").1 "8.8.8.8" = true
    ∧ handleVoteClick (submitVote "A" true "t1" "f1" verifiedWorld).1
        = ((submitVote "A" true "t1" "f1" verifiedWorld).1,
           ClickOutcome.alreadyVotedToast)
    ∧ submitVote "B" true "t2" "f2"
        (submitVote "A" true "t1" "f1" verifiedWorld).1
        = ((submitVote "A" true "t1" "f1" verifiedWorld).1,
           SubmitOutcome.alreadyVotedToast) :=
  C7_vote_permanent_and_blocking verifiedWorld "A" "t1" "f1" "8.8.8.8" "B"
    "t2" "f2" true [AppOp.fetchStats] rfl rfl

/-- C8: computeTally is order-independent — permuting the input votes
changes neither the per-option mapping (read through objGet at any key)
nor the grand total. -/
theorem C8_tally_order_independent (l1 l2 : List Vote) (k : String)
    (h : l1.Perm l2) :
    objGet (computeTally l1) k = objGet (computeTally l2) k
    ∧ totalVotes (computeTally l1) = totalVotes (computeTally l2) := by
  constructor
  · rw [computeTally, computeTally, objGet_foldl_tallyStep,
      objGet_foldl_tallyStep, h.countP_eq]
  · rw [computeTally, computeTally, totalVotes_foldl_tallyStep,
      totalVotes_foldl_tallyStep, h.countP_eq]

theorem C8_witness :
    objGet (computeTally [⟨"A", "1", "i1", "s"⟩, ⟨"B", "2", "i2", "s"⟩]) "A"
      = objGet (computeTally [⟨"B", "2", "i2", "s"⟩, ⟨"A", "1", "i1", "s"⟩]) "A"
    ∧ totalVotes (computeTally
        [⟨"A", "1", "i1", "s"⟩, ⟨"B", "2", "i2", "s"⟩])
      = totalVotes (computeTally
        [⟨"B", "2", "i2", "s"⟩, ⟨"A", "1", "i1", "s"⟩]) :=
  C8_tally_order_independent
    [⟨"A", "1", "i1", "s"⟩, ⟨"B", "2", "i2", "s"⟩]
    [⟨"B", "2", "i2", "s"⟩, ⟨"A", "1", "i1", "s"⟩] "A"
    (List.Perm.swap (⟨"B", "2", "i2", "s"⟩ : Vote)
      (⟨"A", "1", "i1", "s"⟩ : Vote) [])

/-- C9: generateVoteId is idempotent after first creation — a persisted
token is returned unchanged with the persisted copy intact, and starting
from no persisted token, a second sequential call returns the same token
the first call generated and persisted, whatever fresh value the random
source would supply the second time. -/
theorem C9_resolveIdentity_idempotent (t f1 f2 : String) :
    generateVoteId (some t) f1 = (t, some t)
    ∧ (generateVoteId (generateVoteId none f1).2 f2).1
        = (generateVoteId none f1).1 := by
  exact ⟨rfl, rfl⟩

/-- C10: the verification flag is monotone — a step grants verification
exactly when it is the captcha callback with a truthy token (so every
other operation, and the callback with an empty/expired token, leaves an
already-granted verification in place), the callback with an empty token
changes nothing at all, and across any sequence of operations the flag is
the initial flag joined with whether some operation granted it — never
revoked. -/
theorem C10_verification_monotone (w : World) (op : AppOp)
    (ops : List AppOp) :
    (stepApp op w).state.captchaVerified
      = (w.state.captchaVerified || grantsVerification op)
    ∧ stepApp (AppOp.captchaChange "") w = w
    ∧ (applyOps ops w).state.captchaVerified
        = (w.state.captchaVerified || ops.any grantsVerification) := by
  refine ⟨stepApp_captchaVerified op w, by simp [stepApp, onCaptchaChange],
    ?_⟩
  induction ops generalizing w with
  | nil => simp [applyOps_nil]
  | cons o rest ih =>
      rw [applyOps_cons, ih, stepApp_captchaVerified, List.any_cons]
      cases w.state.captchaVerified <;> cases grantsVerification o <;>
        cases rest.any grantsVerification <;> rfl

end VotRomania
